import Mathlib

/-! Verification of the flappy-rust game core.

Rational-number shallow embedding of the game's pure logic: constants from
`src/constants.rs`, resources from `src/resources.rs`, and the systems in
`src/systems/` (bird physics, pipe spawning and movement, scoring, collision
detection, restart, death-particle color selection).  `f32` arithmetic is
modelled over `ℚ`; ECS queries become explicit lists and records; the
pseudo-random draws of `utils::rand_f32` become parameters in `[0, 1)`. -/

namespace FlappyRust

/-- Window width constant (`constants.rs`: `WINDOW_WIDTH`). -/
def WINDOW_WIDTH : ℚ := 400

/-- Window height constant (`constants.rs`: `WINDOW_HEIGHT`). -/
def WINDOW_HEIGHT : ℚ := 600

/-- Gravity constant (`constants.rs`: `GRAVITY`). -/
def GRAVITY : ℚ := -800

/-- Flap impulse constant (`constants.rs`: `FLAP_STRENGTH`). -/
def FLAP_STRENGTH : ℚ := 350

/-- Bird square size (`constants.rs`: `BIRD_SIZE`). -/
def BIRD_SIZE : ℚ := 30

/-- Pipe width (`constants.rs`: `PIPE_WIDTH`). -/
def PIPE_WIDTH : ℚ := 60

/-- Spawn interval in seconds (`constants.rs`: `PIPE_SPAWN_TIME`). -/
def PIPE_SPAWN_TIME : ℚ := 2

/-- Easiest minimum gap (`constants.rs`: `PIPE_GAP_START_MIN`). -/
def PIPE_GAP_START_MIN : ℚ := 140

/-- Easiest maximum gap (`constants.rs`: `PIPE_GAP_START_MAX`). -/
def PIPE_GAP_START_MAX : ℚ := 160

/-- Hardest gap (`constants.rs`: `PIPE_GAP_END`). -/
def PIPE_GAP_END : ℚ := 110

/-- Score at which maximum difficulty is reached (`constants.rs`:
`PIPE_GAP_SCALE_SCORE`). -/
def PIPE_GAP_SCALE_SCORE : Nat := 20

/-- World scroll speed (`constants.rs`: `WORLD_SCROLL_SPEED`). -/
def WORLD_SCROLL_SPEED : ℚ := 150

/-- Ground height (`constants.rs`: `GROUND_HEIGHT`). -/
def GROUND_HEIGHT : ℚ := 50

/-- Death-particle palette (`constants.rs`: `DEATH_PARTICLE_COLORS`): three
RGB triples. -/
def DEATH_PARTICLE_COLORS : List (ℚ × ℚ × ℚ) :=
  [(1, 8/10, 0), (1, 6/10, 0), (1, 4/10, 0)]

/-- Game mode enumeration (`states.rs`: `GameState`). -/
inductive GameState where
  | Menu
  | Playing
  | GameOver
deriving DecidableEq, Repr

/-- A 3-component translation vector (Bevy `Vec3`, rational model). -/
structure Vec3 where
  x : ℚ
  y : ℚ
  z : ℚ
deriving DecidableEq, Repr

/-- Repeating countdown timer (Bevy `Timer` as used by `PipeSpawnTimer` in
`resources.rs`): elapsed time accumulated against a fixed duration. -/
structure Timer where
  elapsed : ℚ
  duration : ℚ
deriving DecidableEq, Repr

/-- Fresh timer with nothing elapsed (`Timer::from_seconds`), as built by
`PipeSpawnTimer::default` with `PIPE_SPAWN_TIME`. -/
def Timer.from_seconds (d : ℚ) : Timer := ⟨0, d⟩

/-- Time left on the timer until it next fires. -/
def Timer.remaining (t : Timer) : ℚ := t.duration - t.elapsed

/-- Advance a repeating timer by `dt`, wrapping the elapsed time around the
duration when the interval completes. -/
def Timer.tick (t : Timer) (dt : ℚ) : Timer :=
  if t.elapsed + dt < t.duration then { t with elapsed := t.elapsed + dt }
  else if t.duration ≤ 0 then { t with elapsed := 0 }
  else { t with elapsed := t.elapsed + dt - t.duration * ((⌊(t.elapsed + dt) / t.duration⌋ : ℤ) : ℚ) }

/-- Timer behaviour of `pipes.rs::pipe_spawner`: the function returns before
ticking the spawn timer unless the mode is `Playing`, so the timer is paused
(not reset) in `Menu` and `GameOver`. -/
def pipe_spawner_tick (mode : GameState) (t : Timer) (dt : ℚ) : Timer :=
  if mode ≠ GameState.Playing then t else t.tick dt

/-- Bird entity state (`components.rs::Bird` plus its `Transform`): vertical
velocity, translation, and z-rotation angle (`Quat::IDENTITY` is tilt `0`). -/
structure BirdState where
  velocity : ℚ
  x : ℚ
  y : ℚ
  z : ℚ
  tilt : ℚ
deriving DecidableEq, Repr

/-- A pipe as seen by the scorer (`components.rs`: `Pipe` with the `Scored`
flag carried by bottom pipes): x-position and scored flag. -/
structure ScoredPipe where
  x : ℚ
  scored : Bool
deriving DecidableEq, Repr

/-- Aggregate world state touched by `game.rs::restart_game`: game mode, the
bird, the pipe entities, the score, and the pipe spawn timer resource. -/
structure World where
  mode : GameState
  bird : BirdState
  pipes : List ScoredPipe
  score : Nat
  spawn_timer : Timer
deriving DecidableEq, Repr

/-- Restart handler (`game.rs::restart_game`, gated by
`run_if(in_state(GameState::GameOver))`): on SPACE it resets the bird
(`reset_bird`: velocity `0`, translation `(-50, 0, 1)`, identity rotation),
despawns all pipes, zeroes the score and transitions to `Playing`.  The pipe
spawn timer is not among its parameters and is left untouched. -/
def restart_game (space_pressed : Bool) (w : World) : World :=
  if w.mode = GameState.GameOver ∧ space_pressed = true then
    { w with
      mode := GameState.Playing
      bird := { velocity := 0, x := -50, y := 0, z := 1, tilt := 0 }
      pipes := []
      score := 0 }
  else w

/-- One pass of `score.rs::update_score` over the pipe query: every pipe with
`scored == false` and `x <` the bird's x is marked scored and increments the
score once; returns the updated pipes and the number of increments. -/
def update_score (birdX : ℚ) : List ScoredPipe → List ScoredPipe × Nat
  | [] => ([], 0)
  | p :: ps =>
    let r := update_score birdX ps
    if p.scored = false ∧ p.x < birdX then
      ({ p with scored := true } :: r.1, r.2 + 1)
    else
      (p :: r.1, r.2)

/-- One pass of `pipes.rs::pipe_movement`: every pipe scrolls left by
`WORLD_SCROLL_SPEED * dt` and pipes past the left boundary are despawned. -/
def pipe_movement (dt : ℚ) (pipes : List ScoredPipe) : List ScoredPipe :=
  (pipes.map fun p => { p with x := p.x - WORLD_SCROLL_SPEED * dt }).filter
    fun p => !decide (p.x < -WINDOW_WIDTH / 2 - PIPE_WIDTH)

/-- One gameplay tick as it affects the score (bird x is fixed in the game):
pipe movement followed by the scorer. -/
def score_tick (birdX : ℚ) (st : List ScoredPipe × Nat) (dt : ℚ) : List ScoredPipe × Nat :=
  let r := update_score birdX (pipe_movement dt st.1)
  (r.1, st.2 + r.2)

/-- A sequence of gameplay ticks with the given frame times. -/
def score_run (birdX : ℚ) (st : List ScoredPipe × Nat) (dts : List ℚ) : List ScoredPipe × Nat :=
  dts.foldl (score_tick birdX) st

/-- Viewport resource (`resources.rs::GameViewport`): logical width and fixed
logical height. -/
structure GameViewport where
  width : ℚ
  height : ℚ
deriving DecidableEq, Repr

/-- Viewport recomputation (`GameViewport::update_from_window`): the width
becomes `height * (window_width / window_height)`; the height is kept. -/
def GameViewport.update_from_window (vp : GameViewport) (window_width window_height : ℚ) :
    GameViewport :=
  { vp with width := vp.height * (window_width / window_height) }

/-- Half the viewport width (`GameViewport::half_width`). -/
def GameViewport.half_width (vp : GameViewport) : ℚ := vp.width / 2

/-- Half the viewport height (`GameViewport::half_height`). -/
def GameViewport.half_height (vp : GameViewport) : ℚ := vp.height / 2

/-- A pipe as seen by the collision detector (`Transform` translation plus the
sprite's `custom_size`). -/
structure SizedPipe where
  x : ℚ
  y : ℚ
  width : ℚ
  height : ℚ
deriving DecidableEq, Repr

/-- Ground test (`collision.rs::check_ground_collision`). -/
def check_ground_collision (bird_pos : Vec3) (vp : GameViewport) : Bool :=
  decide (bird_pos.y - BIRD_SIZE / 2 ≤ -vp.half_height + GROUND_HEIGHT)

/-- Ceiling test (`collision.rs::check_ceiling_collision`). -/
def check_ceiling_collision (bird_pos : Vec3) (vp : GameViewport) : Bool :=
  decide (bird_pos.y + BIRD_SIZE / 2 ≥ vp.half_height)

/-- AABB overlap test (`collision.rs::check_aabb_collision`). -/
def check_aabb_collision (ax ay sa qx qy bw bh : ℚ) : Bool :=
  decide (ax + sa / 2 > qx - bw / 2 ∧ ax - sa / 2 < qx + bw / 2 ∧
          ay + sa / 2 > qy - bh / 2 ∧ ay - sa / 2 < qy + bh / 2)

/-- Any-pipe overlap test (`collision.rs::check_pipe_collisions`). -/
def check_pipe_collisions (bird_pos : Vec3) (pipes : List SizedPipe) : Bool :=
  pipes.any fun p => check_aabb_collision bird_pos.x bird_pos.y BIRD_SIZE p.x p.y p.width p.height

/-- Collision system (`collision.rs::check_collisions`): tests ground, then
ceiling, then pipes, returning after the first hit; a hit runs
`trigger_game_over`, which issues one `GameOver` transition and writes one
`DeathEvent` carrying the bird's position.  Result: the transition issued (if
any) and the list of death events written this tick. -/
def check_collisions (bird_pos : Vec3) (vp : GameViewport) (pipes : List SizedPipe) :
    Option GameState × List Vec3 :=
  if check_ground_collision bird_pos vp then (some GameState.GameOver, [bird_pos])
  else if check_ceiling_collision bird_pos vp then (some GameState.GameOver, [bird_pos])
  else if check_pipe_collisions bird_pos pipes then (some GameState.GameOver, [bird_pos])
  else (none, [])

/-- Difficulty fraction of `pipes.rs::spawn_pipe_pair`:
`(score / PIPE_GAP_SCALE_SCORE).min(1.0)`. -/
def difficulty (score : Nat) : ℚ := min ((score : ℚ) / (PIPE_GAP_SCALE_SCORE : ℚ)) 1

/-- Interpolated minimum gap of `spawn_pipe_pair`. -/
def gap_min (score : Nat) : ℚ :=
  PIPE_GAP_START_MIN + (PIPE_GAP_END - PIPE_GAP_START_MIN) * difficulty score

/-- Interpolated maximum gap of `spawn_pipe_pair`. -/
def gap_max (score : Nat) : ℚ :=
  PIPE_GAP_START_MAX + (PIPE_GAP_END - PIPE_GAP_START_MAX) * difficulty score

/-- Sampled gap size of `spawn_pipe_pair` for the first random draw `r`. -/
def pipe_gap (score : Nat) (r : ℚ) : ℚ :=
  gap_min score + r * (gap_max score - gap_min score)

/-- Sampled vertical gap center of `spawn_pipe_pair` for random draws `r1`
(gap size) and `r2` (gap position). -/
def gap_y (score : Nat) (r1 r2 : ℚ) : ℚ :=
  (r2 - 1/2) * (WINDOW_HEIGHT - GROUND_HEIGHT - pipe_gap score r1 - 100)

/-- Spawn x-position used by `spawn_pipe_pair`:
`WINDOW_WIDTH / 2.0 + PIPE_WIDTH`. -/
def spawn_x : ℚ := WINDOW_WIDTH / 2 + PIPE_WIDTH

/-- Height of the spawned top pipe in `spawn_pipe_pair`. -/
def top_pipe_height (score : Nat) (r1 r2 : ℚ) : ℚ :=
  WINDOW_HEIGHT / 2 - gap_y score r1 r2 - pipe_gap score r1 / 2

/-- Height of the spawned bottom pipe in `spawn_pipe_pair`. -/
def bottom_pipe_height (score : Nat) (r1 r2 : ℚ) : ℚ :=
  WINDOW_HEIGHT / 2 + gap_y score r1 r2 - pipe_gap score r1 / 2 - GROUND_HEIGHT

/-- A pipe entity as spawned by `spawn_pipe_pair`: translation x/y, sprite
size, and the `Scored` component (`some false` on the bottom pipe only). -/
structure SpawnedPipe where
  x : ℚ
  y : ℚ
  width : ℚ
  height : ℚ
  scored : Option Bool
deriving DecidableEq, Repr

/-- Pipe pair spawned by `pipes.rs::spawn_pipe_pair` at score `score` with
random draws `r1` (gap size) and `r2` (gap position): top pipe first. -/
def spawn_pipe_pair (score : Nat) (r1 r2 : ℚ) : SpawnedPipe × SpawnedPipe :=
  (⟨spawn_x, WINDOW_HEIGHT / 2 - top_pipe_height score r1 r2 / 2,
     PIPE_WIDTH, top_pipe_height score r1 r2, none⟩,
   ⟨spawn_x, -WINDOW_HEIGHT / 2 + GROUND_HEIGHT + bottom_pipe_height score r1 r2 / 2,
     PIPE_WIDTH, bottom_pipe_height score r1 r2, some false⟩)

/-- One physics step of `bird.rs::bird_physics`: velocity picks up gravity
first, then the position integrates the new velocity; returns the new
`(velocity, y)`. -/
def bird_physics (v y dt : ℚ) : ℚ × ℚ :=
  (v + GRAVITY * dt, y + (v + GRAVITY * dt) * dt)

/-- A sequence of physics steps with the given frame times. -/
def bird_physics_run (st : ℚ × ℚ) (dts : List ℚ) : ℚ × ℚ :=
  dts.foldl (fun st dt => bird_physics st.1 st.2 dt) st

/-- Screen flash resource (`resources.rs::ScreenFlashState`). -/
structure ScreenFlashState where
  duration : ℚ
  total_duration : ℚ
  color : ℚ × ℚ × ℚ
  max_alpha : ℚ
deriving DecidableEq, Repr

/-- Fade-out alpha (`ScreenFlashState::current_alpha`): `0` when the total
duration is non-positive, otherwise `duration / total_duration * max_alpha`. -/
def ScreenFlashState.current_alpha (s : ScreenFlashState) : ℚ :=
  if s.total_duration ≤ 0 then 0 else s.duration / s.total_duration * s.max_alpha

/-- Edge flash resource (`resources.rs::EdgeFlashState`). -/
structure EdgeFlashState where
  duration : ℚ
  total_duration : ℚ
  color : ℚ × ℚ × ℚ
  max_alpha : ℚ
deriving DecidableEq, Repr

/-- Fade-out alpha (`EdgeFlashState::current_alpha`), same formula as the
screen flash. -/
def EdgeFlashState.current_alpha (s : EdgeFlashState) : ℚ :=
  if s.total_duration ≤ 0 then 0 else s.duration / s.total_duration * s.max_alpha

/-- Color index selection of `effects.rs::spawn_death_particles`:
`(rand * len) as usize` (truncation toward zero, saturating at `0`) followed
by `.min(len - 1)`. -/
def death_color_idx (r : ℚ) : Nat :=
  min (⌊r * (DEATH_PARTICLE_COLORS.length : ℚ)⌋.toNat) (DEATH_PARTICLE_COLORS.length - 1)

/-- A concrete mid-game world in `GameOver`: the spawn timer is halfway
through its interval, some pipes are on screen, the bird has fallen. -/
def sampleWorld : World :=
  { mode := GameState.GameOver
    bird := { velocity := -(321/2), x := -50, y := -87, z := 1, tilt := -(3/10) }
    pipes := [⟨40, true⟩, ⟨220, false⟩]
    score := 7
    spawn_timer := { elapsed := 1, duration := 2 } }

/-- C1 counterexample: restarting from `sampleWorld` (spawn timer halfway
through its 2-second interval) does transition `GameOver` to `Playing`, but
the spawn timer afterwards is not a freshly reset timer — only 1 second of
the full `PIPE_SPAWN_TIME = 2` interval remains. -/
theorem restart_game_timer_not_reset_cex :
    (restart_game true sampleWorld).mode = GameState.Playing ∧
    (restart_game true sampleWorld).spawn_timer ≠ Timer.from_seconds PIPE_SPAWN_TIME ∧
    (restart_game true sampleWorld).spawn_timer.remaining = 1 ∧
    (Timer.from_seconds PIPE_SPAWN_TIME).remaining = PIPE_SPAWN_TIME := by
  refine ⟨rfl, ?_, ?_, ?_⟩
  · intro h
    have h2 := congrArg Timer.elapsed h
    norm_num [restart_game, sampleWorld, Timer.from_seconds] at h2
  · norm_num [restart_game, sampleWorld, Timer.remaining]
  · norm_num [Timer.from_seconds, Timer.remaining, PIPE_SPAWN_TIME]

/-- C1 (amended): a `GameOver` to `Playing` transition via `restart_game`
leaves the pipe spawn timer exactly as it was — the timer does not tick
outside `Playing` (paused) and `restart_game` never touches it, so whatever
part of the interval had elapsed before the game over is still elapsed; a
freshly reset timer, by contrast, has the full `PIPE_SPAWN_TIME` remaining. -/
theorem restart_game_timer_unchanged (w : World) (t : Timer) (dt : ℚ)
    (hw : w.mode = GameState.GameOver) :
    (restart_game true w).spawn_timer = w.spawn_timer ∧
    (restart_game true w).mode = GameState.Playing ∧
    pipe_spawner_tick GameState.GameOver t dt = t ∧
    (Timer.from_seconds PIPE_SPAWN_TIME).remaining = PIPE_SPAWN_TIME := by
  refine ⟨?_, ?_, ?_, ?_⟩
  · simp [restart_game, hw]
  · simp [restart_game, hw]
  · simp [pipe_spawner_tick]
  · simp [Timer.from_seconds, Timer.remaining]

/-- C1 witness: the amended statement instantiated at `sampleWorld`. -/
theorem restart_game_timer_unchanged_inst :
    (restart_game true sampleWorld).spawn_timer = sampleWorld.spawn_timer ∧
    (restart_game true sampleWorld).mode = GameState.Playing ∧
    pipe_spawner_tick GameState.GameOver (Timer.mk 1 2) (1/4) = Timer.mk 1 2 ∧
    (Timer.from_seconds PIPE_SPAWN_TIME).remaining = PIPE_SPAWN_TIME :=
  restart_game_timer_unchanged sampleWorld (Timer.mk 1 2) (1/4) rfl

/-- C3: from any pre-reset world in `GameOver`, the restart transition leaves
an empty pipe list, score `0`, bird velocity `0`, the fixed start translation
`(-50, 0, 1)`, identity rotation (tilt `0`), and mode `Playing`. -/
theorem restart_game_resets_state (w : World) (hw : w.mode = GameState.GameOver) :
    (restart_game true w).mode = GameState.Playing ∧
    (restart_game true w).pipes = [] ∧
    (restart_game true w).score = 0 ∧
    (restart_game true w).bird.velocity = 0 ∧
    (restart_game true w).bird.x = -50 ∧
    (restart_game true w).bird.y = 0 ∧
    (restart_game true w).bird.z = 1 ∧
    (restart_game true w).bird.tilt = 0 := by
  simp [restart_game, hw]

/-- C3 witness: the reset protocol instantiated at `sampleWorld`. -/
theorem restart_game_resets_state_inst :
    (restart_game true sampleWorld).mode = GameState.Playing ∧
    (restart_game true sampleWorld).pipes = [] ∧
    (restart_game true sampleWorld).score = 0 ∧
    (restart_game true sampleWorld).bird.velocity = 0 ∧
    (restart_game true sampleWorld).bird.x = -50 ∧
    (restart_game true sampleWorld).bird.y = 0 ∧
    (restart_game true sampleWorld).bird.z = 1 ∧
    (restart_game true sampleWorld).bird.tilt = 0 :=
  restart_game_resets_state sampleWorld rfl

/-- Helper: the scorer's increment count is exactly the number of pipes with
a cleared scored flag strictly left of the bird. -/
lemma update_score_count (birdX : ℚ) (pipes : List ScoredPipe) :
    (update_score birdX pipes).2
      = pipes.countP (fun p => decide (p.scored = false ∧ p.x < birdX)) := by
  induction pipes with
  | nil => rfl
  | cons p ps ih =>
    by_cases h : p.scored = false ∧ p.x < birdX
    · simp [update_score, h, List.countP_cons, ih]
    · simp [update_score, h, List.countP_cons, ih]

/-- Helper: the scorer rewrites each pipe in place, keeping its position and
setting the scored flag exactly when it was set before or the pipe just
crossed the bird. -/
lemma update_score_forall₂ (birdX : ℚ) (pipes : List ScoredPipe) :
    List.Forall₂ (fun p q : ScoredPipe =>
        q.x = p.x ∧ q.scored = (p.scored || decide (p.x < birdX)))
      pipes (update_score birdX pipes).1 := by
  induction pipes with
  | nil => simp [update_score]
  | cons p ps ih =>
    by_cases h : p.scored = false ∧ p.x < birdX
    · simp only [update_score, if_pos h]
      refine List.Forall₂.cons ⟨rfl, ?_⟩ ih
      simp [h.1, h.2]
    · simp only [update_score, if_neg h]
      refine List.Forall₂.cons ⟨rfl, ?_⟩ ih
      cases hps : p.scored with
      | true => simp
      | false =>
        have hx : ¬ p.x < birdX := fun hlt => h ⟨hps, hlt⟩
        simp [hx]

/-- Helper: after the scorer runs, no pipe left of the bird still has a
cleared scored flag. -/
lemma update_score_post (birdX : ℚ) (pipes : List ScoredPipe) :
    ∀ q ∈ (update_score birdX pipes).1, q.scored = false → ¬ q.x < birdX := by
  induction pipes with
  | nil => simp [update_score]
  | cons p ps ih =>
    by_cases h : p.scored = false ∧ p.x < birdX
    · simp only [update_score, if_pos h]
      intro q hq hqs
      rcases List.mem_cons.mp hq with hq | hq
      · rw [hq] at hqs
        simp at hqs
      · exact ih q hq hqs
    · simp only [update_score, if_neg h]
      intro q hq hqs
      rcases List.mem_cons.mp hq with hq | hq
      · intro hlt
        exact h ⟨by rw [← hq]; exact hqs, by rw [hq] at hlt; exact hlt⟩
      · exact ih q hq hqs

/-- Helper: the scorer increments nothing on a pipe list in which every pipe
left of the bird is already scored. -/
lemma update_score_zero_of (birdX : ℚ) (pipes : List ScoredPipe)
    (h : ∀ p ∈ pipes, p.scored = false → ¬ p.x < birdX) :
    (update_score birdX pipes).2 = 0 := by
  rw [update_score_count, List.countP_eq_zero]
  intro p hp
  simp only [decide_eq_true_eq, not_and]
  exact h p hp

/-- Helper: one score tick never lowers the score. -/
lemma score_tick_le (birdX : ℚ) (st : List ScoredPipe × Nat) (dt : ℚ) :
    st.2 ≤ (score_tick birdX st dt).2 := by
  show st.2 ≤ st.2 + (update_score birdX (pipe_movement dt st.1)).2
  exact Nat.le_add_right _ _

/-- Helper: the score never decreases along any tick sequence. -/
lemma score_run_le (birdX : ℚ) (dts : List ℚ) :
    ∀ st : List ScoredPipe × Nat, st.2 ≤ (score_run birdX st dts).2 := by
  induction dts with
  | nil =>
    intro st
    simp [score_run]
  | cons d rest ih =>
    intro st
    have hrun : score_run birdX st (d :: rest)
        = score_run birdX (score_tick birdX st d) rest := by
      simp [score_run]
    rw [hrun]
    exact le_trans (score_tick_le birdX st d) (ih _)

/-- Helper: pipe movement only translates surviving pipes; their scored flags
come through unchanged. -/
lemma pipe_movement_mem (dt : ℚ) (pipes : List ScoredPipe) :
    ∀ q ∈ pipe_movement dt pipes, ∃ p ∈ pipes,
      q.scored = p.scored ∧ q.x = p.x - WORLD_SCROLL_SPEED * dt := by
  intro q hq
  have hq' := List.mem_of_mem_filter hq
  rcases List.mem_map.mp hq' with ⟨p, hp, hpq⟩
  exact ⟨p, hp, by rw [← hpq], by rw [← hpq]⟩

/-- C2: the scorer increments the score by exactly one per pipe whose scored
flag is `false` and whose x is strictly left of the bird (the increment count
is exactly that pipe count); every pipe keeps its position and its flag
becomes set exactly when it was set or it just crossed; an immediately
repeated pass increments nothing (the flags set the first time make every
crossed pipe ineligible); the score is non-decreasing over every sequence of
movement-plus-scoring ticks; and movement never touches a scored flag, so a
pipe whose flag was set can never be counted again. -/
theorem update_score_exactly_once (birdX : ℚ) (pipes : List ScoredPipe)
    (score : Nat) (dts : List ℚ) :
    (update_score birdX pipes).2
        = pipes.countP (fun p => decide (p.scored = false ∧ p.x < birdX)) ∧
    List.Forall₂ (fun p q : ScoredPipe =>
        q.x = p.x ∧ q.scored = (p.scored || decide (p.x < birdX)))
      pipes (update_score birdX pipes).1 ∧
    (update_score birdX (update_score birdX pipes).1).2 = 0 ∧
    score ≤ (score_run birdX (pipes, score) dts).2 ∧
    (∀ dt : ℚ, ∀ q ∈ pipe_movement dt pipes, ∃ p ∈ pipes,
      q.scored = p.scored ∧ q.x = p.x - WORLD_SCROLL_SPEED * dt) := by
  refine ⟨update_score_count birdX pipes, update_score_forall₂ birdX pipes, ?_, ?_, ?_⟩
  · exact update_score_zero_of birdX _ (update_score_post birdX pipes)
  · exact score_run_le birdX dts (pipes, score)
  · exact fun dt => pipe_movement_mem dt pipes

/-- C4: in one `Playing` tick, if any of the three collision conditions holds
then `check_collisions` issues exactly one `GameOver` transition and exactly
one `DeathEvent` carrying the bird's position; the checks run in the priority
order ground, ceiling, pipes and short-circuit (a ground hit — or a ceiling
hit with clear ground — yields that same single result whatever the pipe set
is); with no collision nothing is issued; and the death-event list never has
more than one element. -/
theorem check_collisions_single_game_over (bird_pos : Vec3) (vp : GameViewport)
    (pipes : List SizedPipe) :
    ((check_ground_collision bird_pos vp || check_ceiling_collision bird_pos vp ||
        check_pipe_collisions bird_pos pipes) = true →
      check_collisions bird_pos vp pipes = (some GameState.GameOver, [bird_pos])) ∧
    (check_ground_collision bird_pos vp = true →
      ∀ pipes' : List SizedPipe,
        check_collisions bird_pos vp pipes' = (some GameState.GameOver, [bird_pos])) ∧
    (check_ground_collision bird_pos vp = false →
      check_ceiling_collision bird_pos vp = true →
      ∀ pipes' : List SizedPipe,
        check_collisions bird_pos vp pipes' = (some GameState.GameOver, [bird_pos])) ∧
    (check_ground_collision bird_pos vp = false →
      check_ceiling_collision bird_pos vp = false →
      check_pipe_collisions bird_pos pipes = true →
      check_collisions bird_pos vp pipes = (some GameState.GameOver, [bird_pos])) ∧
    ((check_ground_collision bird_pos vp || check_ceiling_collision bird_pos vp ||
        check_pipe_collisions bird_pos pipes) = false →
      check_collisions bird_pos vp pipes = (none, [])) ∧
    (check_collisions bird_pos vp pipes).2.length ≤ 1 := by
  cases hg : check_ground_collision bird_pos vp <;>
    cases hc : check_ceiling_collision bird_pos vp <;>
      cases hp : check_pipe_collisions bird_pos pipes <;>
        simp [check_collisions, hg, hc, hp]

/-- Helper: the sampled gap size always stays between the hardest gap `110`
and the easiest maximum `160`. -/
lemma pipe_gap_range (s : Nat) (r : ℚ) (h0 : 0 ≤ r) (h1 : r < 1) :
    (110 : ℚ) ≤ pipe_gap s r ∧ pipe_gap s r ≤ 160 := by
  have hd0 : 0 ≤ difficulty s := le_min (by positivity) zero_le_one
  have hd1 : difficulty s ≤ 1 := min_le_right _ _
  unfold pipe_gap gap_min gap_max PIPE_GAP_END PIPE_GAP_START_MIN PIPE_GAP_START_MAX
  constructor <;>
    nlinarith [mul_nonneg h0 hd0, mul_nonneg h0 (sub_nonneg.mpr hd1),
      mul_nonneg (sub_nonneg.mpr h1.le) (sub_nonneg.mpr hd1),
      mul_nonneg (sub_nonneg.mpr h1.le) hd0]

/-- C5: for every random draw in `[0, 1)`, a spawn at score `0` samples a gap
inside `[PIPE_GAP_START_MIN, PIPE_GAP_START_MAX] = [140, 160]`, and a spawn
at any score at or past `PIPE_GAP_SCALE_SCORE = 20` yields exactly
`PIPE_GAP_END = 110`, whatever the draw was. -/
theorem pipe_gap_difficulty_bounds (r : ℚ) (h0 : 0 ≤ r) (h1 : r < 1) :
    (PIPE_GAP_START_MIN ≤ pipe_gap 0 r ∧ pipe_gap 0 r ≤ PIPE_GAP_START_MAX) ∧
    ∀ s : Nat, PIPE_GAP_SCALE_SCORE ≤ s → pipe_gap s r = PIPE_GAP_END := by
  constructor
  · have hd : difficulty 0 = 0 := by
      norm_num [difficulty]
    have heq : pipe_gap 0 r = 140 + 20 * r := by
      simp only [pipe_gap, gap_min, gap_max, hd, PIPE_GAP_START_MIN, PIPE_GAP_START_MAX,
        PIPE_GAP_END]
      ring
    rw [heq]
    unfold PIPE_GAP_START_MIN PIPE_GAP_START_MAX
    constructor <;> linarith
  · intro s hs
    have hs' : (20 : ℕ) ≤ s := by
      simpa [PIPE_GAP_SCALE_SCORE] using hs
    have hs20 : (20 : ℚ) ≤ (s : ℚ) := by exact_mod_cast hs'
    have hd : difficulty s = 1 := by
      have h20 : ((PIPE_GAP_SCALE_SCORE : ℕ) : ℚ) = 20 := by
        norm_num [PIPE_GAP_SCALE_SCORE]
      unfold difficulty
      rw [h20, min_eq_right]
      rw [le_div_iff₀ (by norm_num : (0:ℚ) < 20), one_mul]
      exact hs20
    simp only [pipe_gap, gap_min, gap_max, hd, PIPE_GAP_START_MIN, PIPE_GAP_START_MAX,
      PIPE_GAP_END]
    ring

/-- C5 witness: the gap bounds instantiated at the draw `r = 1/2` and, for the
capped case, at score `25`. -/
theorem pipe_gap_difficulty_bounds_inst :
    ((PIPE_GAP_START_MIN ≤ pipe_gap 0 (1/2) ∧ pipe_gap 0 (1/2) ≤ PIPE_GAP_START_MAX) ∧
      pipe_gap 25 (1/2) = PIPE_GAP_END) :=
  ⟨(pipe_gap_difficulty_bounds (1/2) (by norm_num) (by norm_num)).1,
   (pipe_gap_difficulty_bounds (1/2) (by norm_num) (by norm_num)).2 25 (by norm_num [PIPE_GAP_SCALE_SCORE])⟩

/-- Helper: pure arithmetic bound behind the stub heights: with the gap in
`[110, 160]` and the position draw in `[0, 1)`, both stub heights are
non-negative. -/
lemma heights_arith (g r2 : ℚ) (hg1 : (110:ℚ) ≤ g) (hg2 : g ≤ 160)
    (h20 : 0 ≤ r2) (h21 : r2 < 1) :
    0 ≤ 600/2 - (r2 - 1/2) * (600 - 50 - g - 100) - g/2 ∧
    0 ≤ 600/2 + (r2 - 1/2) * (600 - 50 - g - 100) - g/2 - 50 := by
  constructor <;>
    nlinarith [mul_nonneg h20 (show (0:ℚ) ≤ 450 - g by linarith),
      mul_nonneg (show (0:ℚ) ≤ 1 - r2 by linarith) (show (0:ℚ) ≤ 450 - g by linarith)]

/-- C6: for every score and every pair of random draws in `[0, 1)`, the top
stub height `window_half_height - gap_y - gap/2` and the bottom stub height
`window_half_height + gap_y - gap/2 - GROUND_HEIGHT` are both non-negative,
and these are exactly the heights `spawn_pipe_pair` gives the two spawned
obstacles. -/
theorem pipe_heights_nonneg (s : Nat) (r1 r2 : ℚ)
    (h10 : 0 ≤ r1) (h11 : r1 < 1) (h20 : 0 ≤ r2) (h21 : r2 < 1) :
    0 ≤ top_pipe_height s r1 r2 ∧ 0 ≤ bottom_pipe_height s r1 r2 ∧
    (spawn_pipe_pair s r1 r2).1.height = top_pipe_height s r1 r2 ∧
    (spawn_pipe_pair s r1 r2).2.height = bottom_pipe_height s r1 r2 := by
  obtain ⟨hg1, hg2⟩ := pipe_gap_range s r1 h10 h11
  have harith := heights_arith (pipe_gap s r1) r2 hg1 hg2 h20 h21
  refine ⟨?_, ?_, rfl, rfl⟩
  · have heq : top_pipe_height s r1 r2
        = 600/2 - (r2 - 1/2) * (600 - 50 - pipe_gap s r1 - 100) - pipe_gap s r1 / 2 := by
      unfold top_pipe_height gap_y WINDOW_HEIGHT GROUND_HEIGHT
      ring
    rw [heq]
    exact harith.1
  · have heq : bottom_pipe_height s r1 r2
        = 600/2 + (r2 - 1/2) * (600 - 50 - pipe_gap s r1 - 100) - pipe_gap s r1 / 2 - 50 := by
      unfold bottom_pipe_height gap_y WINDOW_HEIGHT GROUND_HEIGHT
      ring
    rw [heq]
    exact harith.2

/-- C6 witness: the height bounds instantiated at score `5` and draws
`r1 = r2 = 1/2`. -/
theorem pipe_heights_nonneg_inst :
    0 ≤ top_pipe_height 5 (1/2) (1/2) ∧ 0 ≤ bottom_pipe_height 5 (1/2) (1/2) ∧
    (spawn_pipe_pair 5 (1/2) (1/2)).1.height = top_pipe_height 5 (1/2) (1/2) ∧
    (spawn_pipe_pair 5 (1/2) (1/2)).2.height = bottom_pipe_height 5 (1/2) (1/2) :=
  pipe_heights_nonneg 5 (1/2) (1/2) (by norm_num) (by norm_num) (by norm_num) (by norm_num)

/-- C7 counterexample: after a window resize to `800 × 600` the viewport's
logical width is `800` (half-width `400`), yet both spawned pipes sit at
`x = 260 = WINDOW_WIDTH / 2 + PIPE_WIDTH`, not at viewport half-width plus
pipe width (`460`): the spawner ignores the `GameViewport`. -/
theorem spawn_x_viewport_cex :
    (GameViewport.update_from_window ⟨400, 600⟩ 800 600).half_width = 400 ∧
    (spawn_pipe_pair 0 0 0).1.x = 260 ∧
    (spawn_pipe_pair 0 0 0).2.x = 260 ∧
    (spawn_pipe_pair 0 0 0).1.x
      ≠ (GameViewport.update_from_window ⟨400, 600⟩ 800 600).half_width + PIPE_WIDTH := by
  refine ⟨?_, ?_, ?_, ?_⟩ <;>
    norm_num [GameViewport.update_from_window, GameViewport.half_width, spawn_pipe_pair,
      spawn_x, WINDOW_WIDTH, PIPE_WIDTH]

/-- C7 (amended): both spawned obstacles are placed at the constant
`x = WINDOW_WIDTH / 2 + PIPE_WIDTH` built from the fixed base window width;
the position is independent of the `GameViewport` and agrees with viewport
half-width plus obstacle width exactly when the viewport width equals
`WINDOW_WIDTH`. -/
theorem spawn_x_constant (s : Nat) (r1 r2 : ℚ) :
    (spawn_pipe_pair s r1 r2).1.x = WINDOW_WIDTH / 2 + PIPE_WIDTH ∧
    (spawn_pipe_pair s r1 r2).2.x = WINDOW_WIDTH / 2 + PIPE_WIDTH ∧
    ∀ vp : GameViewport,
      ((spawn_pipe_pair s r1 r2).1.x = vp.half_width + PIPE_WIDTH ↔
        vp.width = WINDOW_WIDTH) := by
  refine ⟨rfl, rfl, ?_⟩
  intro vp
  constructor
  · intro h
    have h' : WINDOW_WIDTH / 2 + PIPE_WIDTH = vp.width / 2 + PIPE_WIDTH := by
      simpa [spawn_pipe_pair, spawn_x, GameViewport.half_width] using h
    unfold WINDOW_WIDTH PIPE_WIDTH at h'
    unfold WINDOW_WIDTH
    linarith
  · intro h
    show spawn_x = vp.half_width + PIPE_WIDTH
    unfold spawn_x GameViewport.half_width
    rw [h]

/-- C8 counterexample: with residual upward velocity `350` from a flap issued
before the tick sequence and `Δt = 1/5`, one flap-free physics tick raises
the bird from `y = 0` to `y = 38`; and with `Δt = 0` the position does not
move at all — so y does not strictly decrease for every `Δt ≥ 0` sequence
without flaps. -/
theorem bird_physics_not_strict_cex :
    (bird_physics 350 0 (1/5)).2 = 38 ∧ ¬ (bird_physics 350 0 (1/5)).2 < 0 ∧
    (bird_physics 0 5 0).2 = 5 := by
  refine ⟨?_, ?_, ?_⟩ <;> norm_num [bird_physics, GRAVITY]

/-- Helper: one flap-free physics tick with positive `Δt` from non-positive
velocity strictly lowers `y` and keeps the velocity non-positive. -/
lemma bird_physics_step_neg (v y dt : ℚ) (hv : v ≤ 0) (hdt : 0 < dt) :
    (bird_physics v y dt).2 < y ∧ (bird_physics v y dt).1 ≤ 0 := by
  have hv2 : v + GRAVITY * dt < 0 := by
    unfold GRAVITY
    nlinarith
  have hdrop : (v + GRAVITY * dt) * dt < 0 := mul_neg_of_neg_of_pos hv2 hdt
  unfold bird_physics
  constructor
  · show y + (v + GRAVITY * dt) * dt < y
    linarith
  · show v + GRAVITY * dt ≤ 0
    linarith

/-- Helper: a flap-free run over positive frame times never raises `y` and
keeps the velocity non-positive. -/
lemma bird_physics_run_le (dts : List ℚ) : ∀ st : ℚ × ℚ, st.1 ≤ 0 →
    (∀ d ∈ dts, 0 < d) →
    (bird_physics_run st dts).2 ≤ st.2 ∧ (bird_physics_run st dts).1 ≤ 0 := by
  induction dts with
  | nil =>
    intro st hv _
    simp [bird_physics_run, hv]
  | cons d rest ih =>
    intro st hv hd
    have hd0 : 0 < d := hd d (by simp)
    have hstep := bird_physics_step_neg st.1 st.2 d hv hd0
    have hrest := ih (bird_physics st.1 st.2 d) hstep.2 (fun x hx => hd x (by simp [hx]))
    have hrun : bird_physics_run st (d :: rest) = bird_physics_run (bird_physics st.1 st.2 d) rest := by
      simp [bird_physics_run]
    rw [hrun]
    exact ⟨le_trans hrest.1 hstep.1.le, hrest.2⟩

/-- C8 (amended): over ticks with strictly positive `Δt` and no flap,
starting from non-positive vertical velocity (any state at or after a flap's
apex), each physics tick strictly decreases `y` and keeps the velocity
non-positive; hence `y` strictly decreases across every nonempty such
sequence. -/
theorem bird_physics_strict_decrease (v y dt : ℚ) (dts : List ℚ)
    (hv : v ≤ 0) (hdt : 0 < dt) (hdts : ∀ d ∈ dts, 0 < d) :
    ((bird_physics v y dt).2 < y ∧ (bird_physics v y dt).1 ≤ 0) ∧
    (dts ≠ [] → (bird_physics_run (v, y) dts).2 < y) := by
  refine ⟨bird_physics_step_neg v y dt hv hdt, ?_⟩
  intro hne
  cases dts with
  | nil => exact absurd rfl hne
  | cons d rest =>
    have hd0 : 0 < d := hdts d (by simp)
    have hstep := bird_physics_step_neg v y d hv hd0
    have hrest := bird_physics_run_le rest (bird_physics v y d) hstep.2
      (fun x hx => hdts x (by simp [hx]))
    have hrun : bird_physics_run (v, y) (d :: rest)
        = bird_physics_run (bird_physics v y d) rest := by
      simp [bird_physics_run]
    rw [hrun]
    exact lt_of_le_of_lt hrest.1 hstep.1

/-- C8 witness: the amended statement instantiated at rest (`v = 0`) with two
ticks of `Δt = 1`. -/
theorem bird_physics_strict_decrease_inst :
    (((bird_physics 0 0 1).2 < 0 ∧ (bird_physics 0 0 1).1 ≤ 0) ∧
      (([(1 : ℚ), 1] ≠ []) → (bird_physics_run (0, 0) [(1 : ℚ), 1]).2 < 0)) :=
  bird_physics_strict_decrease 0 0 1 [1, 1] (by norm_num) (by norm_num) (by decide)

/-- C9 counterexample: a flash state with `duration = total_duration = 1` and
`max_alpha = -1` (so `0 ≤ duration ≤ total_duration` and `total_duration > 0`
hold) yields `current_alpha = -1`, which does not lie in `[0, max_alpha]`:
the claimed range fails for states with negative `max_alpha`. -/
theorem current_alpha_negative_cex :
    (ScreenFlashState.mk 1 1 (1, 3/10, 2/10) (-1)).current_alpha = -1 ∧
    ¬ (0 ≤ (ScreenFlashState.mk 1 1 (1, 3/10, 2/10) (-1)).current_alpha) := by
  constructor <;> norm_num [ScreenFlashState.current_alpha]

/-- C9 (amended): for every `ScreenFlashState` and `EdgeFlashState`,
`current_alpha` is total: it returns `0` whenever `total_duration ≤ 0`
(without evaluating the quotient), equals
`duration / total_duration * max_alpha` whenever `total_duration > 0`, and
lies in `[0, max_alpha]` whenever additionally `0 ≤ duration ≤
total_duration` and `max_alpha` is non-negative (as it is for every flash the
game triggers). -/
theorem current_alpha_total_bounds (s : ScreenFlashState) (e : EdgeFlashState) :
    (s.total_duration ≤ 0 → s.current_alpha = 0) ∧
    (0 < s.total_duration →
      s.current_alpha = s.duration / s.total_duration * s.max_alpha) ∧
    (0 < s.total_duration → 0 ≤ s.duration → s.duration ≤ s.total_duration →
      0 ≤ s.max_alpha → 0 ≤ s.current_alpha ∧ s.current_alpha ≤ s.max_alpha) ∧
    (e.total_duration ≤ 0 → e.current_alpha = 0) ∧
    (0 < e.total_duration →
      e.current_alpha = e.duration / e.total_duration * e.max_alpha) ∧
    (0 < e.total_duration → 0 ≤ e.duration → e.duration ≤ e.total_duration →
      0 ≤ e.max_alpha → 0 ≤ e.current_alpha ∧ e.current_alpha ≤ e.max_alpha) := by
  refine ⟨?_, ?_, ?_, ?_, ?_, ?_⟩
  · intro h
    simp [ScreenFlashState.current_alpha, h]
  · intro h
    simp [ScreenFlashState.current_alpha, not_le.mpr h]
  · intro hT hd hdT hm
    have halpha : s.current_alpha = s.duration / s.total_duration * s.max_alpha := by
      simp [ScreenFlashState.current_alpha, not_le.mpr hT]
    rw [halpha]
    refine ⟨mul_nonneg (div_nonneg hd hT.le) hm, ?_⟩
    have hle : s.duration / s.total_duration ≤ 1 := (div_le_one hT).mpr hdT
    calc s.duration / s.total_duration * s.max_alpha
        ≤ 1 * s.max_alpha := mul_le_mul_of_nonneg_right hle hm
      _ = s.max_alpha := one_mul _
  · intro h
    simp [EdgeFlashState.current_alpha, h]
  · intro h
    simp [EdgeFlashState.current_alpha, not_le.mpr h]
  · intro hT hd hdT hm
    have halpha : e.current_alpha = e.duration / e.total_duration * e.max_alpha := by
      simp [EdgeFlashState.current_alpha, not_le.mpr hT]
    rw [halpha]
    refine ⟨mul_nonneg (div_nonneg hd hT.le) hm, ?_⟩
    have hle : e.duration / e.total_duration ≤ 1 := (div_le_one hT).mpr hdT
    calc e.duration / e.total_duration * e.max_alpha
        ≤ 1 * e.max_alpha := mul_le_mul_of_nonneg_right hle hm
      _ = e.max_alpha := one_mul _

/-- C10: for every random draw in `[0, 1)`, the death-particle color index —
the truncated product clamped by `min` against `len - 1` — is strictly below
the palette length `3`, so the array access is in bounds. -/
theorem death_color_idx_in_bounds (r : ℚ) (h0 : 0 ≤ r) (h1 : r < 1) :
    death_color_idx r < DEATH_PARTICLE_COLORS.length ∧
    (DEATH_PARTICLE_COLORS.get? (death_color_idx r)).isSome = true := by
  have hlen : DEATH_PARTICLE_COLORS.length = 3 := by
    simp [DEATH_PARTICLE_COLORS]
  have hidx : death_color_idx r ≤ 2 := by
    have hmin := min_le_right
      (⌊r * (DEATH_PARTICLE_COLORS.length : ℚ)⌋.toNat) (DEATH_PARTICLE_COLORS.length - 1)
    simpa [death_color_idx, hlen] using hmin
  have hlt : death_color_idx r < DEATH_PARTICLE_COLORS.length := by
    rw [hlen]
    omega
  refine ⟨hlt, ?_⟩
  rw [List.get?_eq_get hlt]
  rfl

/-- C10 witness: the bound instantiated at the draw `r = 1/2`. -/
theorem death_color_idx_in_bounds_inst :
    death_color_idx (1/2) < DEATH_PARTICLE_COLORS.length ∧
    (DEATH_PARTICLE_COLORS.get? (death_color_idx (1/2))).isSome = true :=
  death_color_idx_in_bounds (1/2) (by norm_num) (by norm_num)

end FlappyRust
